import Mathlib

/-!
Verification of the Heltec V3 LoRaWAN sketch (`TTN.ino`).

The sketch is embedded shallowly: the external RadioLib driver is modelled
as a record of the result codes its calls return, hardware and driver calls
become an event trace, serial prints become a log, and the Arduino
`setup`/`loop` entry points become Lean functions over that model.
`millis()` is a 32-bit monotonic clock: real time is a `Nat`, and the
reading is taken modulo 2^32, exactly as `unsigned long` arithmetic wraps
on the ESP32-S3.
-/

namespace TTN

/-- Pin direction passed to `pinMode`. -/
inductive PinMode where
  | input
  | output
  deriving DecidableEq, Repr

/-- Logic level passed to `digitalWrite`. -/
inductive Level where
  | low
  | high
  deriving DecidableEq, Repr

/-- LoRaWAN MAC versions selectable via `setMacVersion`.
Modelled from the spec: the version is one of a small fixed set of
MAC-spec revisions; the sketch only ever selects 1.0.3. -/
inductive LoRaWANVersion where
  | v1_0_3
  | v1_1
  deriving DecidableEq, Repr

-- Pin constants from the sketch.
def LORA_CS_PIN : Nat := 8
def LORA_DIO1_PIN : Nat := 14
def LORA_RST_PIN : Nat := 12
def LORA_BUSY_PIN : Nat := 13
def LORA_SCK_PIN : Nat := 9
def LORA_MISO_PIN : Nat := 11
def LORA_MOSI_PIN : Nat := 10
def LORA_RF_SW_VDD_PIN : Nat := 14

/-- Modelled from the spec: RadioLib's documented "no error" sentinel
(the constant lives in the external RadioLib library, not in this
repository). -/
def RADIOLIB_ERR_NONE : Int := 0

/-- Modelled from the spec: RadioLib's documented "new session" sentinel,
a small integer distinct from generic success (the constant lives in the
external RadioLib library, not in this repository; nothing below depends
on its numeric value, only on its distinctness from `RADIOLIB_ERR_NONE`). -/
def RADIOLIB_LORAWAN_NEW_SESSION : Int := -1110

-- Operator-supplied configuration constants from the sketch.
def joinEUI : Nat := 0
def devEUI : Nat := 0
def nwkKey : List Nat := [0, 0, 0, 0, 0, 0, 0, 0, 0, 0, 0, 0, 0, 0, 0, 0]
def appKey : List Nat := [0, 0, 0, 0, 0, 0, 0, 0, 0, 0, 0, 0, 0, 0, 0, 0]

/-- One hardware or driver call made by the sketch, in program order. -/
inductive Event where
  | pinMode (pin : Nat) (mode : PinMode)
  | digitalWrite (pin : Nat) (level : Level)
  | spiBegin (sck miso mosi nss : Nat)
  | setDio2AsRfSwitch (enable : Bool)
  | radioBegin
  | setMacVersion (v : LoRaWANVersion)
  | beginOTAA (jEUI dEUI : Nat) (nKey aKey : List Nat)
  | activateOTAA
  | sendReceive (payload : List Nat) (len : Nat)
  deriving DecidableEq, Repr

/-- The external RadioLib driver, modelled as the result codes its
fallible calls return to the sketch. -/
structure Driver where
  setDio2Result : Int
  beginResult : Int
  activateResult : Int
  sendResult : Int
  deriving DecidableEq, Repr

/-- Outcome of `setup()`: the infinite idle halt after a radio-init
failure, a successful join, or a failed join carrying the driver's code. -/
inductive SetupOutcome where
  | halted
  | joined
  | joinFailed (code : Int)
  deriving DecidableEq, Repr

/-- `setup()` after the serial gate: the trace of hardware/driver calls,
the diagnostic log lines that report codes, and the final outcome.
Mirrors `TTN.ino` lines 84-132 statement by statement. -/
def setupRun (d : Driver) : List Event × List String × SetupOutcome :=
  let ev0 : List Event :=
    [Event.pinMode LORA_RF_SW_VDD_PIN PinMode.output,
     Event.digitalWrite LORA_RF_SW_VDD_PIN Level.high,
     Event.spiBegin LORA_SCK_PIN LORA_MISO_PIN LORA_MOSI_PIN LORA_CS_PIN,
     Event.setDio2AsRfSwitch true]
  let log0 : List String :=
    if d.setDio2Result ≠ RADIOLIB_ERR_NONE then
      ["setDio2AsRfSwitch failed! Code: " ++ toString d.setDio2Result]
    else []
  let ev1 := ev0 ++ [Event.radioBegin]
  if d.beginResult = RADIOLIB_ERR_NONE then
    let ev2 := ev1 ++
      [Event.setMacVersion LoRaWANVersion.v1_0_3,
       Event.beginOTAA joinEUI devEUI nwkKey appKey,
       Event.activateOTAA]
    if d.activateResult = RADIOLIB_LORAWAN_NEW_SESSION then
      (ev2, log0 ++ ["!!! JOINED SUCCESSFULLY !!!"], SetupOutcome.joined)
    else
      (ev2, log0 ++ ["Join FAILED. Error code: " ++ toString d.activateResult],
       SetupOutcome.joinFailed d.activateResult)
  else
    (ev1, log0 ++ ["Radio init FAILED! Code: " ++ toString d.beginResult],
     SetupOutcome.halted)

/-- The event trace of `setup()`. -/
def setupEvents (d : Driver) : List Event := (setupRun d).1

/-- The diagnostic log of `setup()`. -/
def setupLog (d : Driver) : List String := (setupRun d).2.1

/-- The final outcome of `setup()`. -/
def setupOutcome (d : Driver) : SetupOutcome := (setupRun d).2.2

/-- The serial-gate loop `while (!Serial) { delay(10); }` at the top of
`setup()`: poll the readiness stream for at most `fuel` polls, returning
whether the loop has exited by then. -/
def serialWait (ready : Nat → Bool) : Nat → Bool
  | 0 => false
  | fuel + 1 => if ready 0 then true else serialWait (fun n => ready (n + 1)) fuel

/-- 2^32, the modulus of `unsigned long` arithmetic on the ESP32-S3. -/
def U32 : Nat := 4294967296

/-- `millis()` at real time `t` (milliseconds since boot): the monotonic
clock truncated to 32 bits. -/
def millis (t : Nat) : Nat := t % U32

/-- The fixed payload `{ 0x48, 0x65, 0x6C, 0x6C, 0x6F }` ("Hello"). -/
def helloPayload : List Nat := [0x48, 0x65, 0x6C, 0x6C, 0x6F]

/-- The state of `loop()`: its single `static unsigned long` variable. -/
structure LoopState where
  lastSendTime : Nat
  deriving DecidableEq, Repr

/-- `static unsigned long lastSendTime = 0;` -/
def initialLoopState : LoopState := ⟨0⟩

/-- One pass of `loop()` at real time `t`. The guard
`millis() - lastSendTime > 60000` is unsigned 32-bit subtraction, hence
the `+ U32` and the reduction modulo `U32`. Returns the new state, the
driver calls made, and the log lines printed. -/
def loopIter (d : Driver) (t : Nat) (s : LoopState) :
    LoopState × List Event × List String :=
  if (millis t + U32 - s.lastSendTime % U32) % U32 > 60000 then
    ({ lastSendTime := millis t },
     [Event.sendReceive helloPayload helloPayload.length],
     if d.sendResult = RADIOLIB_ERR_NONE then ["Packet sent!"]
     else ["Send FAILED. Error code: " ++ toString d.sendResult])
  else (s, [], [])

/-- Repeated passes of `loop()` at the given real times, threading the
static state; collects all driver calls. -/
def loopEvents (d : Driver) (s : LoopState) : List Nat → List Event
  | [] => []
  | t :: ts =>
      let r := loopIter d t s
      r.2.1 ++ loopEvents d r.1 ts

/-- The real times at which `loop()` actually calls `sendReceive`, over
repeated passes at the given real times. -/
def sendTimes (d : Driver) (s : LoopState) : List Nat → List Nat
  | [] => []
  | t :: ts =>
      let r := loopIter d t s
      if r.2.1 = [] then sendTimes d r.1 ts
      else t :: sendTimes d r.1 ts

/-- The whole program after the serial gate: `setup()` once, then — unless
`setup` halted in `while (true);` — `loop()` repeatedly at the given real
times. -/
def systemRun (d : Driver) (ts : List Nat) : List Event :=
  match setupOutcome d with
  | SetupOutcome.halted => setupEvents d
  | _ => setupEvents d ++ loopEvents d initialLoopState ts

/-- The whole program including the serial gate: nothing at all runs until
the serial interface reports ready within `fuel` polls. -/
def fullRun (ready : Nat → Bool) (fuel : Nat) (d : Driver) (ts : List Nat) :
    List Event :=
  if serialWait ready fuel then systemRun d ts else []

/-! ### Characterising lemmas -/

lemma setupEvents_eq (d : Driver) : setupEvents d =
    [Event.pinMode LORA_RF_SW_VDD_PIN PinMode.output,
     Event.digitalWrite LORA_RF_SW_VDD_PIN Level.high,
     Event.spiBegin LORA_SCK_PIN LORA_MISO_PIN LORA_MOSI_PIN LORA_CS_PIN,
     Event.setDio2AsRfSwitch true,
     Event.radioBegin] ++
    (if d.beginResult = RADIOLIB_ERR_NONE then
      [Event.setMacVersion LoRaWANVersion.v1_0_3,
       Event.beginOTAA joinEUI devEUI nwkKey appKey,
       Event.activateOTAA]
     else []) := by
  unfold setupEvents setupRun
  split_ifs <;> simp

lemma setupOutcome_eq (d : Driver) : setupOutcome d =
    if d.beginResult = RADIOLIB_ERR_NONE then
      (if d.activateResult = RADIOLIB_LORAWAN_NEW_SESSION then SetupOutcome.joined
       else SetupOutcome.joinFailed d.activateResult)
    else SetupOutcome.halted := by
  unfold setupOutcome setupRun
  split_ifs <;> simp

lemma setupLog_eq (d : Driver) : setupLog d =
    (if d.setDio2Result ≠ RADIOLIB_ERR_NONE then
      ["setDio2AsRfSwitch failed! Code: " ++ toString d.setDio2Result]
     else []) ++
    (if d.beginResult = RADIOLIB_ERR_NONE then
      (if d.activateResult = RADIOLIB_LORAWAN_NEW_SESSION then
        ["!!! JOINED SUCCESSFULLY !!!"]
       else ["Join FAILED. Error code: " ++ toString d.activateResult])
     else ["Radio init FAILED! Code: " ++ toString d.beginResult]) := by
  unfold setupLog setupRun
  split_ifs <;> simp

lemma systemRun_eq (d : Driver) (ts : List Nat) : systemRun d ts =
    setupEvents d ++
    (if setupOutcome d = SetupOutcome.halted then []
     else loopEvents d initialLoopState ts) := by
  rcases h : setupOutcome d <;> simp [systemRun, h]

lemma loopIter_eq_pos (d : Driver) (t : Nat) (s : LoopState)
    (h : 60000 < (millis t + U32 - s.lastSendTime % U32) % U32) :
    loopIter d t s =
      (⟨millis t⟩, [Event.sendReceive helloPayload 5],
       if d.sendResult = RADIOLIB_ERR_NONE then ["Packet sent!"]
       else ["Send FAILED. Error code: " ++ toString d.sendResult]) := by
  unfold loopIter
  rw [if_pos h]
  rfl

lemma loopIter_eq_neg (d : Driver) (t : Nat) (s : LoopState)
    (h : ¬ 60000 < (millis t + U32 - s.lastSendTime % U32) % U32) :
    loopIter d t s = (s, [], []) := by
  unfold loopIter
  rw [if_neg h]

lemma serialWait_never (ready : Nat → Bool) (h : ∀ n, ready n = false) :
    ∀ fuel, serialWait ready fuel = false := by
  intro fuel
  induction fuel generalizing ready with
  | zero => rfl
  | succ f ih => simp [serialWait, h 0, ih (fun n => ready (n + 1)) (fun n => h (n + 1))]

lemma loopEvents_only_send (d : Driver) :
    ∀ (ts : List Nat) (s : LoopState) (e : Event), e ∈ loopEvents d s ts →
      e = Event.sendReceive helloPayload 5 := by
  intro ts
  induction ts with
  | nil => intro s e h; simp [loopEvents] at h
  | cons t ts ih =>
      intro s e h
      unfold loopEvents at h
      rcases List.mem_append.mp h with h1 | h2
      · unfold loopIter at h1
        split_ifs at h1 <;> simp_all [helloPayload]
      · exact ih _ e h2

/-- Unsigned 32-bit elapsed time is exact real elapsed time whenever the
real gap fits in 32 bits. -/
lemma elapsed_exact (r t : Nat) (h1 : r ≤ t) (h2 : t - r < U32) :
    (millis t + U32 - r % U32 % U32) % U32 = t - r := by
  simp only [millis, U32] at *
  omega

/-- If the 32-bit elapsed-time guard fires with last-send stamp taken at
real time `r`, more than 60000 ms of real time have passed since `r`. -/
lemma send_gap (r t : Nat) (h1 : r ≤ t)
    (h : 60000 < (millis t + U32 - r % U32 % U32) % U32) :
    60000 < t - r := by
  simp only [millis, U32] at *
  omega

lemma chain_le_of_le {r t : Nat} {ts : List Nat} (h1 : r ≤ t)
    (h2 : List.Chain (· ≤ ·) t ts) : List.Chain (· ≤ ·) r ts := by
  cases h2 with
  | nil => exact List.Chain.nil
  | cons hu hus => exact List.Chain.cons (le_trans h1 hu) hus

/-- Main scheduler lemma: starting from a last-send stamp taken at real
time `r`, the real times at which `loop()` fires sends form a chain in
which consecutive elements (and `r` and the first send) are more than
60000 ms apart. -/
lemma sendTimes_chain (d : Driver) :
    ∀ (ts : List Nat) (r : Nat), List.Chain (· ≤ ·) r ts →
      List.Chain (fun a b => 60000 < b - a) r (sendTimes d ⟨r % U32⟩ ts) := by
  intro ts
  induction ts with
  | nil => intro r _; exact List.Chain.nil
  | cons t ts ih =>
      intro r h
      rcases h with _ | ⟨hrt, hts⟩
      by_cases hsend :
          60000 < (millis t + U32 - (⟨r % U32⟩ : LoopState).lastSendTime % U32) % U32
      · have hgap : 60000 < t - r := send_gap r t hrt hsend
        have hrec := ih t hts
        rw [sendTimes, loopIter_eq_pos d t _ hsend]
        simp only [List.cons_ne_nil, if_false, reduceIte]
        exact List.Chain.cons hgap (by simpa [millis] using hrec)
      · have hrec := ih r (chain_le_of_le hrt hts)
        rw [sendTimes, loopIter_eq_neg d t _ hsend]
        simpa using hrec

/-! ### Claim theorems -/

/-- Claim C1: over every monotone sequence of real-time passes of the main
loop, the scheduler invokes `sendReceive` at most once per 60000 ms
interval: consecutive send times (and boot and the first send) are more
than 60000 ms apart, with the guard computed in wraparound 32-bit
arithmetic, so the property holds across a clock-wraparound boundary. -/
theorem uplink_at_most_once_per_interval (d : Driver) (ts : List Nat)
    (hmono : List.Chain (· ≤ ·) 0 ts) :
    List.Chain (fun a b => 60000 < b - a) 0 (sendTimes d initialLoopState ts) := by
  have h := sendTimes_chain d ts 0 hmono
  simpa [initialLoopState] using h

/-- Witness for C1, on a schedule of loop passes crossing the 2^32 ms
clock-wraparound boundary. -/
theorem uplink_at_most_once_per_interval_witness :
    List.Chain (· ≤ ·) 0 [100, 60101, 4294967295, 4295027296, 4295087496] ∧
    List.Chain (fun a b => 60000 < b - a) 0
      (sendTimes (Driver.mk 0 0 (-1110) 0) initialLoopState
        [100, 60101, 4294967295, 4295027296, 4295087496]) :=
  ⟨by norm_num [List.chain_cons],
   uplink_at_most_once_per_interval (Driver.mk 0 0 (-1110) 0)
     [100, 60101, 4294967295, 4295027296, 4295087496]
     (by norm_num [List.chain_cons])⟩

/-- Claim C2 counterexample: when `activateOTAA` returns a non-"new
session" code (-1116), the outcome is `JoinFailed`, yet on the very next
elapsed interval the loop still invokes `sendReceive` — refuting "no
uplink send is ever attempted afterwards". -/
theorem joinFailed_still_sends_counterexample :
    setupOutcome (Driver.mk 0 0 (-1116) 0) = SetupOutcome.joinFailed (-1116) ∧
    Event.sendReceive helloPayload 5 ∈ systemRun (Driver.mk 0 0 (-1116) 0) [60001] := by
  decide

/-- Claim C2 (amended): if the join attempt ends in `JoinFailed`, the
process continues running and there is no automatic transition out of
`JoinFailed` — the join is never re-attempted (`activateOTAA` occurs
exactly once, and the loop emits nothing but `sendReceive` calls) — but
the uplink scheduler still invokes `sendReceive` on its normal schedule
regardless of the join outcome. -/
theorem joinFailed_terminal_no_rejoin_sends_continue (d : Driver) (c : Int)
    (ts : List Nat) (h : setupOutcome d = SetupOutcome.joinFailed c) :
    systemRun d ts = setupEvents d ++ loopEvents d initialLoopState ts ∧
    (systemRun d ts).count Event.activateOTAA = 1 ∧
    (∀ e ∈ loopEvents d initialLoopState ts, e = Event.sendReceive helloPayload 5) ∧
    (∀ t, 60000 < millis t →
      Event.sendReceive helloPayload 5 ∈ systemRun d [t]) := by
  have hb : d.beginResult = RADIOLIB_ERR_NONE := by
    by_contra hb
    rw [setupOutcome_eq, if_neg hb] at h
    exact SetupOutcome.noConfusion h
  have hne : setupOutcome d ≠ SetupOutcome.halted := by
    rw [h]
    exact fun hx => SetupOutcome.noConfusion hx
  have hsys : ∀ ts', systemRun d ts' =
      setupEvents d ++ loopEvents d initialLoopState ts' := by
    intro ts'
    rw [systemRun_eq, if_neg hne]
  refine ⟨hsys ts, ?_, ?_, ?_⟩
  · rw [hsys ts, List.count_append]
    have h1 : (setupEvents d).count Event.activateOTAA = 1 := by
      rw [setupEvents_eq, if_pos hb]
      decide
    have h2 : (loopEvents d initialLoopState ts).count Event.activateOTAA = 0 := by
      rw [List.count_eq_zero]
      intro hmem
      have hx := loopEvents_only_send d ts initialLoopState _ hmem
      exact Event.noConfusion hx
    rw [h1, h2]
  · intro e he
    exact loopEvents_only_send d ts initialLoopState e he
  · intro t ht
    rw [hsys [t]]
    refine List.mem_append.mpr (Or.inr ?_)
    have hc : 60000 < (millis t + U32 - initialLoopState.lastSendTime % U32) % U32 := by
      simp only [initialLoopState, millis, U32] at ht ⊢
      omega
    rw [loopEvents, loopIter_eq_pos d t initialLoopState hc]
    simp [loopEvents]

/-- Witness for the amended C2. -/
theorem joinFailed_terminal_no_rejoin_witness :
    systemRun (Driver.mk 0 0 (-1116) 0) [70000] =
      setupEvents (Driver.mk 0 0 (-1116) 0) ++
        loopEvents (Driver.mk 0 0 (-1116) 0) initialLoopState [70000] :=
  (joinFailed_terminal_no_rejoin_sends_continue (Driver.mk 0 0 (-1116) 0)
    (-1116) [70000] (by decide)).1

/-- Claim C3: when the radio initialised, the join outcome is exactly the
image of the `activateOTAA` code — the "new session" sentinel maps to
`Joined`, and any other code maps to `JoinFailed` carrying that exact
code, which is also reported verbatim on the diagnostic log. -/
theorem join_outcome_maps_activation_code (d : Driver)
    (h : d.beginResult = RADIOLIB_ERR_NONE) :
    (d.activateResult = RADIOLIB_LORAWAN_NEW_SESSION →
      setupOutcome d = SetupOutcome.joined) ∧
    (d.activateResult ≠ RADIOLIB_LORAWAN_NEW_SESSION →
      setupOutcome d = SetupOutcome.joinFailed d.activateResult ∧
      ("Join FAILED. Error code: " ++ toString d.activateResult) ∈ setupLog d) := by
  rw [setupOutcome_eq, setupLog_eq]
  split_ifs <;> simp_all

/-- Witness for C3, at a "new session" driver and at a failing driver. -/
theorem join_outcome_maps_activation_code_witness :
    setupOutcome (Driver.mk 0 0 RADIOLIB_LORAWAN_NEW_SESSION 0) = SetupOutcome.joined ∧
    setupOutcome (Driver.mk 0 0 (-9) 0) = SetupOutcome.joinFailed (-9) :=
  ⟨(join_outcome_maps_activation_code (Driver.mk 0 0 RADIOLIB_LORAWAN_NEW_SESSION 0)
      (by decide)).1 (by decide),
   ((join_outcome_maps_activation_code (Driver.mk 0 0 (-9) 0)
      (by decide)).2 (by decide)).1⟩

/-- Claim C4: in every execution, GPIO 14 is configured as an output and
driven HIGH strictly before the unique `radio.begin` call. -/
theorem rf_switch_powered_before_radio_init (d : Driver) :
    [Event.pinMode LORA_RF_SW_VDD_PIN PinMode.output,
     Event.digitalWrite LORA_RF_SW_VDD_PIN Level.high,
     Event.radioBegin].Sublist (setupEvents d) ∧
    (setupEvents d).count Event.radioBegin = 1 := by
  rw [setupEvents_eq]
  split_ifs <;> decide

/-- Claim C5: in every execution, whenever `beginOTAA` or `activateOTAA`
is called, `setMacVersion` (forcing 1.0.3) was called before it; and
`activateOTAA` is called at most once. -/
theorem mac_version_forced_before_activation (d : Driver) :
    (setupEvents d).count Event.activateOTAA ≤ 1 ∧
    (Event.activateOTAA ∈ setupEvents d →
      [Event.setMacVersion LoRaWANVersion.v1_0_3,
       Event.beginOTAA joinEUI devEUI nwkKey appKey,
       Event.activateOTAA].Sublist (setupEvents d)) ∧
    (Event.beginOTAA joinEUI devEUI nwkKey appKey ∈ setupEvents d →
      [Event.setMacVersion LoRaWANVersion.v1_0_3,
       Event.beginOTAA joinEUI devEUI nwkKey appKey].Sublist (setupEvents d)) := by
  rw [setupEvents_eq]
  split_ifs <;> decide

/-- Witness for C5, at a driver whose radio initialises. -/
theorem mac_version_forced_before_activation_witness :
    [Event.setMacVersion LoRaWANVersion.v1_0_3,
     Event.beginOTAA joinEUI devEUI nwkKey appKey,
     Event.activateOTAA].Sublist (setupEvents (Driver.mk 0 0 0 0)) :=
  (mac_version_forced_before_activation (Driver.mk 0 0 0 0)).2.1 (by decide)

/-- Claim C6: if `radio.begin` returns any code other than
`RADIOLIB_ERR_NONE`, the process halts in the infinite idle state:
version forcing, `beginOTAA`, `activateOTAA` and every `sendReceive` are
never reached. -/
theorem radio_init_failure_halts (d : Driver) (ts : List Nat)
    (h : d.beginResult ≠ RADIOLIB_ERR_NONE) :
    setupOutcome d = SetupOutcome.halted ∧
    systemRun d ts = setupEvents d ∧
    (∀ v, Event.setMacVersion v ∉ systemRun d ts) ∧
    (∀ a b k1 k2, Event.beginOTAA a b k1 k2 ∉ systemRun d ts) ∧
    Event.activateOTAA ∉ systemRun d ts ∧
    (∀ p n, Event.sendReceive p n ∉ systemRun d ts) := by
  have hout : setupOutcome d = SetupOutcome.halted := by
    rw [setupOutcome_eq, if_neg h]
  have hsys : systemRun d ts = setupEvents d := by
    rw [systemRun_eq, if_pos hout, List.append_nil]
  refine ⟨hout, hsys, fun v => ?_, fun a b k1 k2 => ?_, ?_, fun p n => ?_⟩ <;>
    simp [hsys, setupEvents_eq, h]

/-- Witness for C6, at a driver whose `radio.begin` fails with -2. -/
theorem radio_init_failure_halts_witness :
    setupOutcome (Driver.mk 0 (-2) 0 0) = SetupOutcome.halted ∧
    (∀ p n, Event.sendReceive p n ∉ systemRun (Driver.mk 0 (-2) 0 0) [0, 60001]) :=
  ⟨(radio_init_failure_halts (Driver.mk 0 (-2) 0 0) [0, 60001] (by decide)).1,
   (radio_init_failure_halts (Driver.mk 0 (-2) 0 0) [0, 60001] (by decide)).2.2.2.2.2⟩

/-- Claim C7: the `setDio2AsRfSwitch` result is warn-and-continue: for
every code it may return, the event trace and outcome are unchanged,
radio initialisation is still reached (and the join attempt too when the
radio initialises), and a failing code is reported on the log. -/
theorem dio2_failure_nonfatal (d : Driver) (c : Int) :
    setupEvents (Driver.mk c d.beginResult d.activateResult d.sendResult) =
      setupEvents d ∧
    setupOutcome (Driver.mk c d.beginResult d.activateResult d.sendResult) =
      setupOutcome d ∧
    Event.radioBegin ∈
      setupEvents (Driver.mk c d.beginResult d.activateResult d.sendResult) ∧
    (d.beginResult = RADIOLIB_ERR_NONE →
      Event.activateOTAA ∈
        setupEvents (Driver.mk c d.beginResult d.activateResult d.sendResult)) ∧
    (c ≠ RADIOLIB_ERR_NONE →
      ("setDio2AsRfSwitch failed! Code: " ++ toString c) ∈
        setupLog (Driver.mk c d.beginResult d.activateResult d.sendResult)) := by
  refine ⟨?_, ?_, ?_, fun hb => ?_, fun hc => ?_⟩
  · rw [setupEvents_eq, setupEvents_eq]
  · rw [setupOutcome_eq, setupOutcome_eq]
  · simp [setupEvents_eq]
  · simp [setupEvents_eq, hb]
  · simp [setupLog_eq, hc]

/-- Witness for C7, at a failing `setDio2AsRfSwitch` code. -/
theorem dio2_failure_nonfatal_witness :
    setupOutcome (Driver.mk (-707) 0 0 0) = setupOutcome (Driver.mk 0 0 0 0) ∧
    ("setDio2AsRfSwitch failed! Code: " ++ toString (-707 : Int)) ∈
      setupLog (Driver.mk (-707) 0 0 0) :=
  ⟨(dio2_failure_nonfatal (Driver.mk 0 0 0 0) (-707)).2.1,
   (dio2_failure_nonfatal (Driver.mk 0 0 0 0) (-707)).2.2.2.2 (by decide)⟩

/-- Claim C8: every `sendReceive` invocation made by any pass of the loop
carries exactly the fixed 5-byte payload 48 65 6C 6C 6F with length 5. -/
theorem sendReceive_fixed_payload (d : Driver) (t : Nat) (s : LoopState)
    (p : List Nat) (n : Nat)
    (h : Event.sendReceive p n ∈ (loopIter d t s).2.1) :
    p = helloPayload ∧ n = 5 ∧ p.length = 5 := by
  by_cases hc : 60000 < (millis t + U32 - s.lastSendTime % U32) % U32
  · rw [loopIter_eq_pos d t s hc] at h
    simp only [List.mem_singleton, Event.sendReceive.injEq] at h
    rcases h with ⟨hp, hn⟩
    subst hp
    subst hn
    exact ⟨rfl, rfl, rfl⟩
  · rw [loopIter_eq_neg d t s hc] at h
    simp at h

/-- Witness for C8, at the first elapsed tick. -/
theorem sendReceive_fixed_payload_witness :
    helloPayload = helloPayload ∧ 5 = 5 ∧ helloPayload.length = 5 :=
  sendReceive_fixed_payload (Driver.mk 0 0 0 0) 60001 initialLoopState
    helloPayload 5 (by decide)

/-- Claim C9: the serial gate dominates bring-up: if the serial interface
never reports ready, then however long the program polls, no hardware or
driver call at all — no pin configuration, no radio initialisation, no
join attempt, no send — is ever performed. -/
theorem serial_gate_blocks_bringup (ready : Nat → Bool) (fuel : Nat)
    (d : Driver) (ts : List Nat) (h : ∀ n, ready n = false) :
    fullRun ready fuel d ts = [] := by
  unfold fullRun
  rw [serialWait_never ready h fuel]
  simp

/-- Witness for C9, with a never-ready serial stream. -/
theorem serial_gate_blocks_bringup_witness :
    fullRun (fun _ => false) 5 (Driver.mk 0 0 0 0) [0, 1] = [] :=
  serial_gate_blocks_bringup (fun _ => false) 5 (Driver.mk 0 0 0 0) [0, 1]
    (fun _ => rfl)

/-- Claim C10: `lastSendTime` starts at 0, so no send happens at any real
time up to 60000 ms after boot, and a pass at 60001 ms does send. -/
theorem no_send_in_first_interval (d : Driver) (t : Nat) :
    initialLoopState.lastSendTime = 0 ∧
    (t ≤ 60000 → (loopIter d t initialLoopState).2.1 = []) ∧
    (loopIter d 60001 initialLoopState).2.1 = [Event.sendReceive helloPayload 5] := by
  refine ⟨rfl, fun ht => ?_, ?_⟩
  · have hc : ¬ 60000 < (millis t + U32 - initialLoopState.lastSendTime % U32) % U32 := by
      simp only [initialLoopState, millis, U32]
      omega
    rw [loopIter_eq_neg d t initialLoopState hc]
  · have hc : 60000 < (millis 60001 + U32 - initialLoopState.lastSendTime % U32) % U32 := by
      decide
    rw [loopIter_eq_pos d 60001 initialLoopState hc]

/-- Witness for C10, at real time 3 ms. -/
theorem no_send_in_first_interval_witness :
    (loopIter (Driver.mk 0 0 0 0) 3 initialLoopState).2.1 = [] :=
  (no_send_in_first_interval (Driver.mk 0 0 0 0) 3).2.1 (by decide)

end TTN
